import Mathlib

/-!
Verification of `lms/static/js/learner_dashboard/views/upgrade_message_view.js`.

The file is a one-shot Backbone view: `initialize` selects one of two
underscore templates from `options.is_eligible_for_subscription`, stores the
mount point `options.$el`, renders once, then registers the rendered upsell
buttons with the commerce-tracking collaborator.  `render` merges a literal
default record with `this.model.toJSON()` via `$.extend` and sets the result
of the selected template into the mount point.

Embedding conventions:
* JS object literals become association lists of `String × JValue`;
  `$.extend(target, source)` becomes a left fold of key upserts into the
  target (later source entries win, matching jQuery's copy loop).
* `Backbone.Model.toJSON()` returns a shallow clone of the attributes; in
  the pure embedding it is the attribute list itself.
* The two compiled templates and `HtmlUtils` are external collaborators; a
  compiled template applied to a data record is modelled symbolically as the
  pair of the chosen variant and the data record (`Markup`), which records
  exactly which template function was invoked and with which data.
* `trackECommerceEvents.trackUpsellClick` is an external collaborator; its
  invocation is modelled as an emitted `TrackCall` record.
* jQuery's `find` on the mount point is the host page's DOM query; it is a
  parameter `fnd : MountPoint → String → List Element` of `initialize`.
* A missing `this.model` makes `this.model.toJSON()` throw; fallibility is
  modelled with `Option`: `render` (and hence `initialize`) returns `none`
  exactly when the model is absent.
-/

/-- A JavaScript value as it appears in the data records of this view:
booleans, strings and numbers. -/
inductive JValue : Type where
  | jBool : Bool → JValue
  | jStr : String → JValue
  | jNum : Int → JValue
deriving DecidableEq, Repr

/-- A JavaScript object literal: an association list from field names to
values.  Real JS objects have unique keys; lemmas that need that carry a
`Nodup` hypothesis on the key list. -/
abbrev JObject : Type := List (String × JValue)

/-- Property lookup `o[k]`: the first entry with key `k`, if any. -/
def JObject.get (o : JObject) (k : String) : Option JValue :=
  (o.find? (fun p => p.1 = k)).map Prod.snd

/-- One step of jQuery's `$.extend` copy loop: the property assignment
`target[k] = v`, replacing the entry for `k` in place or appending a fresh
one.  (JS objects have unique keys, so replacing the first occurrence is
the assignment.) -/
def JObject.upsert : JObject → String → JValue → JObject
  | [], k, v => [(k, v)]
  | p :: t, k, v =>
      if p.1 = k then (k, v) :: t else p :: JObject.upsert t k v

/-- `$.extend(target, source)`: copy every source property into the target,
in source order, so source fields override target fields of the same name. -/
def JObject.extend (target source : JObject) : JObject :=
  source.foldl (fun acc p => acc.upsert p.1 p.2) target

/-- A Backbone data model: its attribute hash. -/
structure BackboneModel : Type where
  attributes : JObject
deriving DecidableEq, Repr

/-- `Backbone.Model.toJSON()`: a shallow clone of the attributes. -/
def BackboneModel.toJSON (m : BackboneModel) : JObject :=
  m.attributes

/-- Which of the two imported underscore templates was compiled:
`upgradeMessageTpl` (standard) or `upgradeMessageSubscriptionTpl`. -/
inductive TemplateTag : Type where
  | standard : TemplateTag
  | subscription : TemplateTag
deriving DecidableEq, Repr

/-- The markup produced by applying a compiled template to a data record.
The template bodies are external `.underscore` collaborators, so markup is
modelled symbolically as the pair (which template, which data record). -/
structure Markup : Type where
  tpl : TemplateTag
  data : JObject
deriving DecidableEq, Repr

/-- The compiled template function `HtmlUtils.template(src)` for variant
`t`, applied to a data record. -/
def applyTemplate (t : TemplateTag) (data : JObject) : Markup :=
  ⟨t, data⟩

/-- The mount point `$el`: a DOM element whose inner content is either the
host page's original content (abstracted away as `none`) or markup set by
`HtmlUtils.setHtml`. -/
structure MountPoint : Type where
  content : Option Markup
deriving DecidableEq, Repr

/-- A DOM element handle returned by a jQuery `find` query. -/
abbrev Element : Type := Nat

/-- The context record passed to `trackUpsellClick`. -/
structure TrackContext : Type where
  linkType : String
  pageName : String
  linkCategory : String
deriving DecidableEq, Repr

/-- One invocation of the external collaborator
`trackECommerceEvents.trackUpsellClick`. -/
structure TrackCall : Type where
  elements : List Element
  eventCategory : String
  context : TrackContext
deriving DecidableEq, Repr

/-- The construction options consumed by `initialize`:
`is_eligible_for_subscription` and the mount handle `$el`. -/
structure Options : Type where
  is_eligible_for_subscription : Bool
  el : MountPoint
deriving DecidableEq, Repr

/-- The state of an `UpgradeMessageView` instance: the selected template
`this.messageTpl`, the mount point `this.$el`, and `this.model` (absent when
the host page attached no model). -/
structure ViewState : Type where
  messageTpl : TemplateTag
  el : MountPoint
  model : Option BackboneModel
deriving DecidableEq, Repr

namespace UpgradeMessageView

/-- The default record literal built inside `render` before `$.extend`. -/
def defaults : JObject :=
  [("is_eligible_for_subscription", JValue.jBool true),
   ("subscription_state", JValue.jStr "active"),
   ("subscription_price", JValue.jStr "$39"),
   ("trial_length", JValue.jNum 7)]

/-- The data record `render` passes to the selected template:
`$.extend(defaults, this.model.toJSON())`. -/
def renderData (m : BackboneModel) : JObject :=
  JObject.extend defaults m.toJSON

/-- `render()`: build the merged data record and replace the mount point's
content with the selected template applied to it.  Returns `none` when
`this.model` is absent, since `this.model.toJSON()` then throws. -/
def render (v : ViewState) : Option ViewState :=
  match v.model with
  | none => none
  | some m =>
      some { v with el := ⟨some (applyTemplate v.messageTpl (renderData m))⟩ }

/-- The CSS selector queried after render. -/
def upsellSelector : String := ".program_dashboard_course_upsell_button"

/-- The constructor body `initialize(options)` (named `construct` here):
select the template from `options.is_eligible_for_subscription`, store
`options.$el`, render, query the rendered mount for upsell buttons, and
invoke the tracking collaborator once.  `fnd` is the host DOM's jQuery
`find`; the result pairs the final view state with the trace of tracking
invocations, and is `none` exactly when the render step threw. -/
def construct (fnd : MountPoint → String → List Element)
    (options : Options) (model : Option BackboneModel) :
    Option (ViewState × List TrackCall) := do
  let messageTpl :=
    if options.is_eligible_for_subscription then TemplateTag.subscription
    else TemplateTag.standard
  let v0 : ViewState := ⟨messageTpl, options.el, model⟩
  let v1 ← render v0
  let courseUpsellButtons := fnd v1.el upsellSelector
  some (v1,
    [⟨courseUpsellButtons, "program_dashboard_course",
      ⟨"button", "program_dashboard", "green_upgrade"⟩⟩])

end UpgradeMessageView

/-- The template that `initialize` selects from the options flag. -/
def UpgradeMessageView.tplOf (options : Options) : TemplateTag :=
  if options.is_eligible_for_subscription then TemplateTag.subscription
  else TemplateTag.standard

/-- The mount point as it stands right after `render` during construction:
its content is the selected template applied to the merged data record. -/
def UpgradeMessageView.renderedMount (options : Options) (m : BackboneModel) :
    MountPoint :=
  ⟨some (applyTemplate (UpgradeMessageView.tplOf options)
    (UpgradeMessageView.renderData m))⟩

/-- The fixed context record passed to `trackUpsellClick`. -/
def upsellContext : TrackContext :=
  ⟨"button", "program_dashboard", "green_upgrade"⟩

section Lemmas

/-- Lookup after one `$.extend` assignment: the assigned key now maps to the
assigned value, every other key is untouched. -/
lemma JObject.get_upsert (o : JObject) (k k' : String) (v : JValue) :
    JObject.get (JObject.upsert o k v) k' =
      if k' = k then some v else JObject.get o k' := by
  induction o with
  | nil =>
      rcases eq_or_ne k' k with hk | hk
      · simp [JObject.get, JObject.upsert, hk]
      · have hk2 : ¬ k = k' := fun h => hk h.symm
        simp [JObject.get, JObject.upsert, hk, hk2]
  | cons p t ih =>
      by_cases hp : p.1 = k
      · rcases eq_or_ne k' k with hk | hk
        · simp [JObject.get, JObject.upsert, List.find?_cons, hp, hk]
        · have hk2 : ¬ k = k' := fun h => hk h.symm
          have hpk : ¬ p.1 = k' := fun h => hk2 (hp ▸ h)
          simp [JObject.get, JObject.upsert, List.find?_cons, hp, hk, hk2, hpk]
      · by_cases hp' : p.1 = k'
        · have hk : ¬ k' = k := fun h => hp (h ▸ hp')
          simp [JObject.get, JObject.upsert, List.find?_cons, hp, hp', hk]
        · simp only [JObject.upsert, hp, if_false]
          simp only [JObject.get, List.find?_cons] at ih ⊢
          simpa [hp'] using ih

/-- A key absent from an object's key list looks up to nothing. -/
lemma JObject.get_eq_none_of_not_mem (o : JObject) (k : String)
    (h : k ∉ o.map Prod.fst) : JObject.get o k = none := by
  induction o with
  | nil => rfl
  | cons p t ih =>
      simp only [List.map_cons, List.mem_cons, not_or] at h
      have hp : ¬ p.1 = k := fun hh => h.1 hh.symm
      have ih' := ih h.2
      simp only [JObject.get, List.find?_cons] at ih' ⊢
      simp [hp, ih']

/-- Lookup in `$.extend(target, source)` when the source has unique keys
(as every JS object does): a source field overrides, otherwise the target
field survives. -/
lemma JObject.get_extend (target source : JObject) (k : String)
    (hs : (source.map Prod.fst).Nodup) :
    JObject.get (JObject.extend target source) k =
      match JObject.get source k with
      | some v => some v
      | none => JObject.get target k := by
  induction source generalizing target with
  | nil => simp [JObject.extend, JObject.get]
  | cons p t ih =>
      obtain ⟨hpt, hnd⟩ := List.nodup_cons.mp hs
      have hstep : JObject.extend target (p :: t) =
          JObject.extend (JObject.upsert target p.1 p.2) t := rfl
      rw [hstep, ih _ hnd]
      by_cases hk : p.1 = k
      · have htk : JObject.get t k = none :=
          JObject.get_eq_none_of_not_mem t k (hk ▸ hpt)
        have hhead : JObject.get (p :: t) k = some p.2 := by
          simp [JObject.get, List.find?_cons, hk]
        rw [htk, hhead, JObject.get_upsert]
        simp [hk.symm]
      · have hk2 : ¬ k = p.1 := fun h => hk h.symm
        have htail : JObject.get (p :: t) k = JObject.get t k := by
          simp [JObject.get, List.find?_cons, hk]
        rw [htail]
        rcases h : JObject.get t k with _ | w
        · rw [JObject.get_upsert]
          simp [hk2]
        · rfl

/-- Construction with a present model: the full outcome, shared by the
claim theorems.  Template selected from the flag, mount replaced by the
rendered markup, model kept, and one tracking call registered on the
buttons found in the freshly rendered mount. -/
lemma construct_some_eq (fnd : MountPoint → String → List Element)
    (options : Options) (m : BackboneModel) :
    UpgradeMessageView.construct fnd options (some m) =
      some
        (⟨UpgradeMessageView.tplOf options,
          UpgradeMessageView.renderedMount options m, some m⟩,
         [⟨fnd (UpgradeMessageView.renderedMount options m)
             UpgradeMessageView.upsellSelector,
           "program_dashboard_course", upsellContext⟩]) := rfl

end Lemmas

/-- C1: whenever the constructor flag is false and the model does not define
`is_eligible_for_subscription`, the data record handed to the (standard)
template still carries `is_eligible_for_subscription = true` — the
render-time default ignores the constructor flag and is only overridden by
the model itself; in particular, with options
`{is_eligible_for_subscription: false}` and model
`{subscription_price: "$99"}` the standard template is invoked with data
`{is_eligible_for_subscription: true, subscription_state: "active",
subscription_price: "$99", trial_length: 7}`. -/
theorem C1_default_flag_ignores_constructor_flag :
    (∀ (fnd : MountPoint → String → List Element) (mp : MountPoint)
        (m : BackboneModel),
        (List.map Prod.fst m.toJSON).Nodup →
        JObject.get m.toJSON "is_eligible_for_subscription" = none →
        (∃ tc, UpgradeMessageView.construct fnd ⟨false, mp⟩ (some m) =
          some (⟨TemplateTag.standard,
            ⟨some ⟨TemplateTag.standard, UpgradeMessageView.renderData m⟩⟩,
            some m⟩, tc)) ∧
        JObject.get (UpgradeMessageView.renderData m)
          "is_eligible_for_subscription" = some (JValue.jBool true))
    ∧
    UpgradeMessageView.construct (fun _ _ => []) ⟨false, ⟨none⟩⟩
        (some ⟨[("subscription_price", JValue.jStr "$99")]⟩) =
      some (⟨TemplateTag.standard,
        ⟨some ⟨TemplateTag.standard,
          [("is_eligible_for_subscription", JValue.jBool true),
           ("subscription_state", JValue.jStr "active"),
           ("subscription_price", JValue.jStr "$99"),
           ("trial_length", JValue.jNum 7)]⟩⟩,
        some ⟨[("subscription_price", JValue.jStr "$99")]⟩⟩,
        [⟨[], "program_dashboard_course", upsellContext⟩]) := by
  constructor
  · intro fnd mp m hnd hflag
    constructor
    · exact ⟨_, construct_some_eq fnd ⟨false, mp⟩ m⟩
    · have h := JObject.get_extend UpgradeMessageView.defaults m.toJSON
        "is_eligible_for_subscription" hnd
      rw [UpgradeMessageView.renderData, h, hflag]
      rfl
  · rfl

/-- C1 witness: the scenario-B inputs satisfy the hypotheses of the general
part and yield the stated outcome. -/
theorem C1_witness :
    (∃ tc, UpgradeMessageView.construct (fun _ _ => []) ⟨false, ⟨none⟩⟩
        (some ⟨[("subscription_price", JValue.jStr "$99")]⟩) =
      some (⟨TemplateTag.standard,
        ⟨some ⟨TemplateTag.standard,
          UpgradeMessageView.renderData
            ⟨[("subscription_price", JValue.jStr "$99")]⟩⟩⟩,
        some ⟨[("subscription_price", JValue.jStr "$99")]⟩⟩, tc)) ∧
    JObject.get (UpgradeMessageView.renderData
        ⟨[("subscription_price", JValue.jStr "$99")]⟩)
      "is_eligible_for_subscription" = some (JValue.jBool true) :=
  C1_default_flag_ignores_constructor_flag.1 (fun _ _ => []) ⟨none⟩
    ⟨[("subscription_price", JValue.jStr "$99")]⟩ (by decide) (by decide)

/-- C2: for every options record, construction selects the subscription
template exactly when the flag is true and the standard template when it is
false, and the markup set during render was produced by that same selected
template. -/
theorem C2_selected_template_is_rendered
    (fnd : MountPoint → String → List Element) (options : Options)
    (m : BackboneModel) (v : ViewState) (tc : List TrackCall)
    (h : UpgradeMessageView.construct fnd options (some m) = some (v, tc)) :
    (options.is_eligible_for_subscription = true →
      v.messageTpl = TemplateTag.subscription) ∧
    (options.is_eligible_for_subscription = false →
      v.messageTpl = TemplateTag.standard) ∧
    v.el.content = some ⟨v.messageTpl, UpgradeMessageView.renderData m⟩ := by
  rw [construct_some_eq] at h
  obtain ⟨hv, _⟩ := Prod.mk.injEq .. ▸ (Option.some.injEq .. ▸ h)
  subst hv
  cases hb : options.is_eligible_for_subscription <;>
    simp [UpgradeMessageView.tplOf, UpgradeMessageView.renderedMount,
      applyTemplate, hb]

/-- C2 witness: a concrete construction with the flag set to true. -/
theorem C2_witness :
    (true = true → TemplateTag.subscription = TemplateTag.subscription) ∧
    (true = false → TemplateTag.subscription = TemplateTag.standard) ∧
    (UpgradeMessageView.renderedMount ⟨true, ⟨none⟩⟩ ⟨[]⟩).content =
      some ⟨TemplateTag.subscription, UpgradeMessageView.renderData ⟨[]⟩⟩ :=
  C2_selected_template_is_rendered (fun _ _ => []) ⟨true, ⟨none⟩⟩ ⟨[]⟩
    ⟨TemplateTag.subscription, UpgradeMessageView.renderedMount ⟨true, ⟨none⟩⟩ ⟨[]⟩,
      some ⟨[]⟩⟩
    [⟨[], "program_dashboard_course", upsellContext⟩] (by rfl)

/-- C3: the data record `render` passes to the template is the default
record `{is_eligible_for_subscription: true, subscription_state: "active",
subscription_price: "$39", trial_length: 7}` merged with the serialized
model: on every key, the model's field wins when defined, and otherwise the
default record's field (in particular each of the four defaults) is used. -/
theorem C3_render_merges_defaults_with_model (v : ViewState)
    (m : BackboneModel) (k : String) (hv : v.model = some m)
    (hm : (List.map Prod.fst m.toJSON).Nodup) :
    UpgradeMessageView.render v =
      some { v with
        el := ⟨some ⟨v.messageTpl, UpgradeMessageView.renderData m⟩⟩ } ∧
    JObject.get (UpgradeMessageView.renderData m) k =
      match JObject.get m.toJSON k with
      | some w => some w
      | none => JObject.get UpgradeMessageView.defaults k := by
  constructor
  · rw [UpgradeMessageView.render, hv]
    rfl
  · exact JObject.get_extend UpgradeMessageView.defaults m.toJSON k hm

/-- C3 witness: a model overriding `subscription_price`, probed at that
key. -/
theorem C3_witness :
    UpgradeMessageView.render
        ⟨TemplateTag.standard, ⟨none⟩,
          some ⟨[("subscription_price", JValue.jStr "$99")]⟩⟩ =
      some ⟨TemplateTag.standard,
        ⟨some ⟨TemplateTag.standard,
          UpgradeMessageView.renderData
            ⟨[("subscription_price", JValue.jStr "$99")]⟩⟩⟩,
        some ⟨[("subscription_price", JValue.jStr "$99")]⟩⟩ ∧
    JObject.get (UpgradeMessageView.renderData
        ⟨[("subscription_price", JValue.jStr "$99")]⟩) "subscription_price" =
      match JObject.get
          (BackboneModel.toJSON ⟨[("subscription_price", JValue.jStr "$99")]⟩)
          "subscription_price" with
      | some w => some w
      | none => JObject.get UpgradeMessageView.defaults "subscription_price" :=
  C3_render_merges_defaults_with_model
    ⟨TemplateTag.standard, ⟨none⟩,
      some ⟨[("subscription_price", JValue.jStr "$99")]⟩⟩
    ⟨[("subscription_price", JValue.jStr "$99")]⟩ "subscription_price"
    (by rfl) (by decide)

/-- C4: every construction registers exactly one tracking call, carrying
all elements the DOM query returns for
`.program_dashboard_course_upsell_button` on the (post-render) mount point,
the category `"program_dashboard_course"`, and the context
`{linkType: "button", pageName: "program_dashboard",
linkCategory: "green_upgrade"}`. -/
theorem C4_single_tracking_call
    (fnd : MountPoint → String → List Element) (options : Options)
    (m : BackboneModel) (v : ViewState) (tc : List TrackCall)
    (h : UpgradeMessageView.construct fnd options (some m) = some (v, tc)) :
    tc = [⟨fnd v.el UpgradeMessageView.upsellSelector,
      "program_dashboard_course",
      ⟨"button", "program_dashboard", "green_upgrade"⟩⟩] := by
  rw [construct_some_eq] at h
  obtain ⟨hv, htc⟩ := Prod.mk.injEq .. ▸ (Option.some.injEq .. ▸ h)
  subst hv
  exact htc.symm

/-- C4 witness: a DOM with two matching buttons yields the one call with
both elements. -/
theorem C4_witness :
    [⟨[4, 7], "program_dashboard_course",
      ⟨"button", "program_dashboard", "green_upgrade"⟩⟩] =
      ([⟨(fun _ _ => [4, 7]) (UpgradeMessageView.renderedMount ⟨true, ⟨none⟩⟩ ⟨[]⟩)
          UpgradeMessageView.upsellSelector,
        "program_dashboard_course",
        ⟨"button", "program_dashboard", "green_upgrade"⟩⟩] : List TrackCall) :=
  (C4_single_tracking_call (fun _ _ => [4, 7]) ⟨true, ⟨none⟩⟩ ⟨[]⟩
    ⟨TemplateTag.subscription,
      UpgradeMessageView.renderedMount ⟨true, ⟨none⟩⟩ ⟨[]⟩, some ⟨[]⟩⟩
    [⟨[4, 7], "program_dashboard_course", upsellContext⟩] (by rfl)).symm

/-- C5: render is idempotent — with the model unchanged, a second render
produces the same markup and leaves the mount point's content (indeed the
whole view state) identical. -/
theorem C5_render_idempotent (v : ViewState) :
    (UpgradeMessageView.render v).bind UpgradeMessageView.render =
      UpgradeMessageView.render v := by
  rcases v with ⟨tpl, el, _ | m⟩ <;> rfl

/-- C6: an absent model makes serialization throw during the in-constructor
render, so construction fails (no silent fallback); with a present model,
construction always completes for any flag and mount handle. -/
theorem C6_absent_model_fails
    (fnd : MountPoint → String → List Element) (options : Options) :
    UpgradeMessageView.construct fnd options none = none ∧
    ∀ m : BackboneModel,
      (UpgradeMessageView.construct fnd options (some m)).isSome = true := by
  refine ⟨rfl, fun m => ?_⟩
  rw [construct_some_eq]
  rfl

/-- C7: exactly one of the two templates is selected at construction,
determined solely by the `is_eligible_for_subscription` option (subscription
iff the flag is true, standard iff it is false), and the only other
operation in the file, `render`, leaves the selection unchanged. -/
theorem C7_template_fixed_for_lifetime
    (fnd : MountPoint → String → List Element) (options : Options)
    (m : BackboneModel) (v : ViewState) (tc : List TrackCall)
    (h : UpgradeMessageView.construct fnd options (some m) = some (v, tc)) :
    ((v.messageTpl = TemplateTag.subscription ↔
        options.is_eligible_for_subscription = true) ∧
     (v.messageTpl = TemplateTag.standard ↔
        options.is_eligible_for_subscription = false)) ∧
    (UpgradeMessageView.render v).map ViewState.messageTpl =
      some v.messageTpl := by
  rw [construct_some_eq] at h
  obtain ⟨hv, _⟩ := Prod.mk.injEq .. ▸ (Option.some.injEq .. ▸ h)
  subst hv
  cases hb : options.is_eligible_for_subscription <;>
    simp [UpgradeMessageView.tplOf, UpgradeMessageView.render, hb]

/-- C7 witness: a concrete construction with the flag set to false. -/
theorem C7_witness :
    ((TemplateTag.standard = TemplateTag.subscription ↔ false = true) ∧
     (TemplateTag.standard = TemplateTag.standard ↔ false = false)) ∧
    (UpgradeMessageView.render
        ⟨TemplateTag.standard,
          UpgradeMessageView.renderedMount ⟨false, ⟨none⟩⟩ ⟨[]⟩,
          some ⟨[]⟩⟩).map ViewState.messageTpl =
      some TemplateTag.standard :=
  C7_template_fixed_for_lifetime (fun _ _ => []) ⟨false, ⟨none⟩⟩ ⟨[]⟩
    ⟨TemplateTag.standard,
      UpgradeMessageView.renderedMount ⟨false, ⟨none⟩⟩ ⟨[]⟩, some ⟨[]⟩⟩
    [⟨[], "program_dashboard_course", upsellContext⟩] (by rfl)

/-- C8: when the rendered markup holds no element matching
`.program_dashboard_course_upsell_button`, construction still completes
normally and the tracking collaborator is invoked once with an empty
element collection — zero matches is not an error. -/
theorem C8_zero_buttons_not_an_error
    (fnd : MountPoint → String → List Element) (options : Options)
    (m : BackboneModel)
    (hz : fnd (UpgradeMessageView.renderedMount options m)
      UpgradeMessageView.upsellSelector = []) :
    UpgradeMessageView.construct fnd options (some m) =
      some (⟨UpgradeMessageView.tplOf options,
        UpgradeMessageView.renderedMount options m, some m⟩,
        [⟨[], "program_dashboard_course",
          ⟨"button", "program_dashboard", "green_upgrade"⟩⟩]) := by
  rw [construct_some_eq, hz]
  rfl

/-- C8 witness: a DOM query that finds nothing. -/
theorem C8_witness :
    UpgradeMessageView.construct (fun _ _ => []) ⟨true, ⟨none⟩⟩ (some ⟨[]⟩) =
      some (⟨UpgradeMessageView.tplOf ⟨true, ⟨none⟩⟩,
        UpgradeMessageView.renderedMount ⟨true, ⟨none⟩⟩ ⟨[]⟩, some ⟨[]⟩⟩,
        [⟨[], "program_dashboard_course",
          ⟨"button", "program_dashboard", "green_upgrade"⟩⟩]) :=
  C8_zero_buttons_not_an_error (fun _ _ => []) ⟨true, ⟨none⟩⟩ ⟨[]⟩ (by rfl)

/-- C9: the construction pipeline is a synchronous sequence — template
selection, mount storage, render (merge then content replacement), then the
button query and tracking registration: the one tracking call's elements
are queried from the mount point carrying the freshly rendered markup, and
the outcome is independent of whatever content the mount held before
construction (so the query can only see post-render content). -/
theorem C9_steps_in_order
    (fnd : MountPoint → String → List Element) (options : Options)
    (m : BackboneModel) :
    UpgradeMessageView.construct fnd options (some m) =
      some (⟨UpgradeMessageView.tplOf options,
        UpgradeMessageView.renderedMount options m, some m⟩,
        [⟨fnd (UpgradeMessageView.renderedMount options m)
            UpgradeMessageView.upsellSelector,
          "program_dashboard_course",
          ⟨"button", "program_dashboard", "green_upgrade"⟩⟩]) ∧
    ∀ c : Option Markup,
      UpgradeMessageView.construct fnd
          ⟨options.is_eligible_for_subscription, ⟨c⟩⟩ (some m) =
        UpgradeMessageView.construct fnd options (some m) :=
  ⟨construct_some_eq fnd options m, fun _ => rfl⟩

/-- C10: neither construction nor render writes to the data model — the
constructed view still holds the original model, and re-rendering leaves
the stored model untouched (`toJSON` clones and `$.extend` targets the
fresh default literal). -/
theorem C10_model_not_mutated
    (fnd : MountPoint → String → List Element) (options : Options)
    (m : BackboneModel) (v : ViewState) (tc : List TrackCall)
    (h : UpgradeMessageView.construct fnd options (some m) = some (v, tc)) :
    v.model = some m ∧
    (UpgradeMessageView.render v).map ViewState.model = some (some m) := by
  rw [construct_some_eq] at h
  obtain ⟨hv, _⟩ := Prod.mk.injEq .. ▸ (Option.some.injEq .. ▸ h)
  subst hv
  exact ⟨rfl, rfl⟩

/-- C10 witness: a concrete construction keeps its model. -/
theorem C10_witness :
    (⟨UpgradeMessageView.tplOf ⟨false, ⟨none⟩⟩,
        UpgradeMessageView.renderedMount ⟨false, ⟨none⟩⟩
          ⟨[("trial_length", JValue.jNum 14)]⟩,
        some ⟨[("trial_length", JValue.jNum 14)]⟩⟩ : ViewState).model =
      some ⟨[("trial_length", JValue.jNum 14)]⟩ ∧
    (UpgradeMessageView.render
        ⟨UpgradeMessageView.tplOf ⟨false, ⟨none⟩⟩,
          UpgradeMessageView.renderedMount ⟨false, ⟨none⟩⟩
            ⟨[("trial_length", JValue.jNum 14)]⟩,
          some ⟨[("trial_length", JValue.jNum 14)]⟩⟩).map ViewState.model =
      some (some ⟨[("trial_length", JValue.jNum 14)]⟩) :=
  C10_model_not_mutated (fun _ _ => []) ⟨false, ⟨none⟩⟩
    ⟨[("trial_length", JValue.jNum 14)]⟩
    ⟨UpgradeMessageView.tplOf ⟨false, ⟨none⟩⟩,
      UpgradeMessageView.renderedMount ⟨false, ⟨none⟩⟩
        ⟨[("trial_length", JValue.jNum 14)]⟩,
      some ⟨[("trial_length", JValue.jNum 14)]⟩⟩
    [⟨[], "program_dashboard_course", upsellContext⟩] (by rfl)
